import Mathlib

/-!
Verification of the StockScreen metrics-and-screening core.

Shallow embedding of the Python sources:
  src/calculations/ttm_calculator.py     (TTM aggregation)
  src/calculations/growth_analyzer.py    (growth streaks)
  src/calculations/metrics.py            (ROIC, tax rate)
  src/calculations/industry_averages.py  (peer-median PE pool)
  src/screening/filters.py               (the eight criteria)
  src/screening/screener.py              (filter dispatch and composite score)

Numeric values are rationals. A pandas DataFrame built from a period-to-fields
dictionary is embedded as a list of columns (`Frame`), each column an
association list of reported line items (`Year`); a line item absent from one
column but reported in another shows up as NaN in pandas, which the `PyF` type
makes explicit where that matters (metrics.py). Statement order inside one
column is irrelevant to every embedded computation, which only ever looks
fields up by name.
-/

/-- One statement period (a DataFrame column): the line items reported for
that period with their numeric values. A field that was not reported for the
period is absent from the list, never zero. -/
abbrev Year := List (String × ℚ)

/-- A statement series (a DataFrame): its columns in the order the source
sorts them (most recent first for TTM/metrics frames, oldest first for the
growth frame). -/
abbrev Frame := List Year

/-- First value bound to `k`, like dict/Series lookup by label. -/
def alookup {α : Type} (k : String) : List (String × α) → Option α
  | [] => none
  | (f, v) :: rest => if f = k then some v else alookup k rest

/-- The row index of a frame: every field name reported in any of its
columns (pandas builds the union index when the DataFrame is created). -/
def frameIndex (qs : Frame) : List String :=
  (qs.map (fun y => y.map Prod.fst)).flatten

/-- `TTMCalculator._sum_quarters` (ttm_calculator.py:46-59) together with the
`_get_last_n_quarters` guard it calls (ttm_calculator.py:36-44): sum `field`
over the `n` most recent periods; `None` when the frame is empty or has fewer
than `n` periods, when the field is in no period at all (not in the row
index), or when fewer than `n` of the `n` most recent periods report it
(`dropna` shrinks the window). -/
def sum_quarters (qs : Frame) (field : String) (n : Nat) : Option ℚ :=
  if qs.isEmpty then none
  else if qs.length < n then none
  else if field ∈ frameIndex qs then
    let vals := (qs.take n).filterMap (alookup field)
    if vals.length < n then none else some vals.sum
  else none

/-- `_sum_quarters` applied through the parsed-frame field, which is `None`
when the raw data was absent or unparseable. -/
def sum_quarters_opt (df : Option Frame) (field : String) (n : Nat) : Option ℚ :=
  match df with
  | none => none
  | some qs => sum_quarters qs field n

/-- Python `a or b` on two optional floats: `b` unless `a` is a number other
than zero (`None` and `0.0` are both falsy). -/
def opt_or (a b : Option ℚ) : Option ℚ :=
  match a with
  | some q => if q = 0 then b else some q
  | none => b

/-- `TTMCalculator.get_ttm_operating_income` (ttm_calculator.py:75-83):
`_sum_quarters(..., "Operating Income") or _sum_quarters(..., "EBIT")`. -/
def get_ttm_operating_income (quarterly_financials : Option Frame) : Option ℚ :=
  opt_or (sum_quarters_opt quarterly_financials "Operating Income" 4)
    (sum_quarters_opt quarterly_financials "EBIT" 4)

/-- `TTMCalculator.get_ttm_operating_cashflow` (ttm_calculator.py:85-93). -/
def get_ttm_operating_cashflow (quarterly_cashflow : Option Frame) : Option ℚ :=
  opt_or (sum_quarters_opt quarterly_cashflow "Operating Cash Flow" 4)
    (sum_quarters_opt quarterly_cashflow "Cash Flow From Continuing Operating Activities" 4)

/-- Claim C3's contract, written from the claim's words: the sum of the field
over the `n` most recent periods exactly when the series has at least `n`
periods and the field is present in all `n` of them, otherwise unknown. -/
def sum_quarters_claim (qs : Frame) (field : String) (n : Nat) : Option ℚ :=
  if n ≤ qs.length ∧ (qs.take n).all (fun y => (alookup field y).isSome) then
    some (((qs.take n).filterMap (alookup field)).sum)
  else none

/-- `GrowthAnalyzer._get_metric_series` (growth_analyzer.py:32-44): the
observed (non-missing) values of `field` in column order; `None` when the
frame is missing, the field is in no column, or every column misses it. -/
def metric_series (annual_financials : Option Frame) (field : String) : Option (List ℚ) :=
  match annual_financials with
  | none => none
  | some qs =>
    if field ∈ frameIndex qs then
      let s := qs.filterMap (alookup field)
      if s.isEmpty then none else some s
    else none

/-- The loop of `count_consecutive_growth_years` (growth_analyzer.py:61-68)
on the already-reversed (newest-first) value list: count adjacent steps while
`previous > 0` and `current > previous`, stop at the first violation. -/
def growth_steps : List ℚ → Nat
  | c :: p :: rest => if p > 0 ∧ c > p then growth_steps (p :: rest) + 1 else 0
  | _ => 0

/-- `GrowthAnalyzer.count_consecutive_growth_years` (growth_analyzer.py:46-70):
0 when the series is missing or has fewer than 2 observed points, else the
streak counted on the reversed series. -/
def count_consecutive_growth_years (annual_financials : Option Frame) (field : String) : Nat :=
  match metric_series annual_financials field with
  | none => 0
  | some s => if s.length < 2 then 0 else growth_steps s.reverse

/-- Claim C4's description of the walk: the number of initial adjacent pairs
of the newest-first series satisfying (previous > 0 and current > previous). -/
def growth_count_claim (s : List ℚ) : Nat :=
  ((s.reverse.zip s.reverse.tail).takeWhile (fun cp => decide (cp.2 > 0 ∧ cp.1 > cp.2))).length

/-- What a pandas `Series.get(label)` hands to the Python code in metrics.py:
a number, NaN (label in the frame's union index but missing for this
column), or `None` (label in no column at all). -/
inductive PyF where
  | num (q : ℚ)
  | nan
  | pynone
deriving DecidableEq, Repr

/-- Python truthiness of such a value: `None` and `0.0` are falsy, NaN and
every other number are truthy. -/
def PyF.truthy : PyF → Bool
  | .num q => decide (q ≠ 0)
  | .nan => true
  | .pynone => false

/-- Python `a or b` on two such values. -/
def pyOr (a b : PyF) : PyF := if a.truthy then a else b

/-- `pd.isna`: true for NaN and for `None`. -/
def PyF.isna : PyF → Bool
  | .num _ => false
  | .nan => true
  | .pynone => true

/-- Addition as the metrics code uses it. At every arithmetic site in
`calculate_roic` both operands have already been defaulted through `or 0`, so
they are numbers or NaN, never `None`; NaN propagates. -/
def PyF.add : PyF → PyF → PyF
  | .num a, .num b => .num (a + b)
  | _, _ => .nan

/-- Subtraction, NaN-propagating (same reachability note as `PyF.add`). -/
def PyF.sub : PyF → PyF → PyF
  | .num a, .num b => .num (a - b)
  | _, _ => .nan

/-- Multiplication, NaN-propagating (same reachability note as `PyF.add`). -/
def PyF.mul : PyF → PyF → PyF
  | .num a, .num b => .num (a * b)
  | _, _ => .nan

/-- Division, NaN-propagating. The two division sites in `calculate_roic`
are guarded (`pretax > 0`, `invested_capital <= 0` returns early), so the
denominator is never the number zero. -/
def PyF.div : PyF → PyF → PyF
  | .num a, .num b => .num (a / b)
  | _, _ => .nan

/-- Python `abs` on a number or NaN. -/
def PyF.absF : PyF → PyF
  | .num q => .num |q|
  | _ => .nan

/-- Python `x > 0`: false for NaN (`None` never reaches a comparison in the
source, the truthiness tests run first). -/
def PyF.gtZero : PyF → Bool
  | .num q => decide (0 < q)
  | _ => false

/-- Python `x <= 0`: false for NaN. -/
def PyF.leZero : PyF → Bool
  | .num q => decide (q ≤ 0)
  | _ => false

/-- Python `max(x, b)` with a float literal `b`: NaN stays NaN (comparisons
with NaN are false, so `max` keeps its first argument). -/
def pyMax (a : PyF) (b : ℚ) : PyF :=
  match a with
  | .num q => .num (max q b)
  | x => x

/-- Python `min(x, b)`: NaN stays NaN. -/
def pyMin (a : PyF) (b : ℚ) : PyF :=
  match a with
  | .num q => .num (min q b)
  | x => x

/-- `Series.get(field)` on the column `y` of frame `qs`. -/
def colGet (qs : Frame) (y : Year) (field : String) : PyF :=
  match alookup field y with
  | some v => .num v
  | none => if field ∈ frameIndex qs then .nan else .pynone

/-- The tax-rate block of `MetricsCalculator.calculate_roic`
(metrics.py:122-130): `|tax| / pretax` clamped to [0, 0.5] when
`pretax and tax and pretax > 0`, else the fixed default 0.25. -/
def effective_tax_rate (qs : Frame) (fin : Year) : PyF :=
  let pretax := colGet qs fin "Pretax Income"
  let tax := pyOr (colGet qs fin "Tax Provision") (colGet qs fin "Income Tax Expense")
  if pretax.truthy && tax.truthy && pretax.gtZero then
    pyMin (pyMax ((tax.absF).div pretax) 0) (1/2)
  else .num (1/4)

/-- `MetricsCalculator.calculate_roic` (metrics.py:96-158). `pynone` is the
Python `None` return (missing frames, offset past the financials, the
`pd.isna` guards, non-positive invested capital, or a caught exception such
as the balance frame being shorter than the offset). The cache side effects
and logging of the source do not exist here; the computation is otherwise a
line-by-line transcription, including the conditional-expression fallback
for total debt and the second fallback taken only when the first came out
NaN. -/
def calculate_roic (annual_financials annual_balance : Option Frame) (year_offset : Nat) : PyF :=
  match annual_financials, annual_balance with
  | some finF, some balF =>
    if finF.length ≤ year_offset then .pynone
    else
      match finF[year_offset]?, balF[year_offset]? with
      | some fin, some bal =>
        let ebit := pyOr (colGet finF fin "EBIT") (colGet finF fin "Operating Income")
        if ebit.isna then .pynone
        else
          let tax_rate := effective_tax_rate finF fin
          let nopat := ebit.mul ((PyF.num 1).sub tax_rate)
          let td := colGet balF bal "Total Debt"
          let ltd := colGet balF bal "Long Term Debt"
          let cd := colGet balF bal "Current Debt"
          let total_debt0 := if td.isna then (pyOr td (.num 0)).add (pyOr ltd (.num 0)) else td
          let total_debt := if total_debt0.isna then (pyOr ltd (.num 0)).add (pyOr cd (.num 0)) else total_debt0
          let total_equity := pyOr (colGet balF bal "Total Equity") (colGet balF bal "Stockholders Equity")
          if total_equity.isna then .pynone
          else
            let cash0 := pyOr (pyOr (colGet balF bal "Cash And Cash Equivalents")
              (colGet balF bal "Cash Cash Equivalents And Short Term Investments")) (.num 0)
            let cash := if cash0.isna then .num 0 else cash0
            let invested_capital := ((pyOr total_debt (.num 0)).add total_equity).sub cash
            if invested_capital.leZero then .pynone
            else nopat.div invested_capital
      | _, _ => .pynone
  | _, _ => .pynone

/-- Claim C5's invested capital, written from the claim's words: total debt
is the directly reported field, else long-term plus current debt with
missing components 0; total equity required; cash defaults to 0. -/
def invested_capital_claim (bal : Year) : Option ℚ :=
  let td := match alookup "Total Debt" bal with
    | some v => v
    | none => (alookup "Long Term Debt" bal).getD 0 + (alookup "Current Debt" bal).getD 0
  match (alookup "Total Equity" bal).orElse (fun _ => alookup "Stockholders Equity" bal) with
  | none => none
  | some eq => some (td + eq - (alookup "Cash And Cash Equivalents" bal).getD 0)

/-- Claim C6's effective tax rate, written from the claim's words: the
clamped quotient whenever pretax income and the tax provision are known and
pretax income is strictly positive, the fixed default 0.25 in every other
case. -/
def tax_rate_claim (pretax tax : Option ℚ) : ℚ :=
  match pretax, tax with
  | some p, some t => if 0 < p then min (max (|t| / p) 0) (1/2) else 1/4
  | _, _ => 1/4

/-- Claim C6 amended: the tax-rate block's complete behavior over every
state the two lookups can produce. On plain numbers the clamped quotient
applies exactly when pretax income is strictly positive and the tax value
nonzero (Python truthiness), the default 0.25 otherwise; a NaN tax slot
(the field reported in another period but missing in the evaluated one) is
truthy, so with a known positive pretax the computed rate is NaN — not the
default; a NaN or missing pretax income falls to the default, since
`NaN > 0` is false. -/
def tax_rate_amended (pretax tax : PyF) : PyF :=
  match pretax, tax with
  | .num p, .num t =>
    if 0 < p ∧ t ≠ 0 then .num (min (max (|t| / p) 0) (1/2)) else .num (1/4)
  | .num p, .nan => if 0 < p then .nan else .num (1/4)
  | _, _ => .num (1/4)

/-- Python string truthiness of an optional string: `None` and the empty
string are falsy. -/
def strTruthy : Option String → Bool
  | none => false
  | some s => decide (s ≠ "")

/-- The state of an `IndustryAverages` instance (industry_averages.py:12-17).
The two defaultdict pools are total functions (a label never appended to
holds the default empty list), the two collapsed maps partial functions, and
`averages_calculated` the dirty flag. -/
structure IAState where
  pe_by_industry : String → List ℚ
  pe_by_sector : String → List ℚ
  averages_calculated : Bool
  industry_avg : String → Option ℚ
  sector_avg : String → Option ℚ

/-- `IndustryAverages.__init__`: empty pools, nothing collapsed. -/
def initIA : IAState :=
  { pe_by_industry := fun _ => []
    pe_by_sector := fun _ => []
    averages_calculated := false
    industry_avg := fun _ => none
    sector_avg := fun _ => none }

/-- `IndustryAverages.add_company` (industry_averages.py:19-30): a PE that is
`None`, non-positive or above 200 is ignored; otherwise it is appended to
the industry bucket and the sector bucket whose labels are truthy, and the
pool is marked dirty. -/
def add_company (industry sector : Option String) (pe : Option ℚ) (s : IAState) : IAState :=
  match pe with
  | none => s
  | some p =>
    if p ≤ 0 ∨ 200 < p then s
    else
      { s with
        pe_by_industry := fun l =>
          if strTruthy industry ∧ industry = some l then s.pe_by_industry l ++ [p]
          else s.pe_by_industry l
        pe_by_sector := fun l =>
          if strTruthy sector ∧ sector = some l then s.pe_by_sector l ++ [p]
          else s.pe_by_sector l
        averages_calculated := false }

/-- The median computation of `_calculate_averages` (industry_averages.py:37-42
and 46-51): sort ascending, take the middle element, or for an even count the
mean of the two central elements. Only ever applied to a nonempty list. -/
def median_of (pes : List ℚ) : ℚ :=
  let s := List.insertionSort (fun a b => a ≤ b) pes
  let mid := s.length / 2
  if s.length % 2 = 0 then ((s.getD (mid - 1) 0) + s.getD mid 0) / 2
  else s.getD mid 0

/-- `IndustryAverages._calculate_averages` (industry_averages.py:32-59): every
label with a nonempty bucket gets its median written into the collapsed map
(labels outside the pool keep any previous entry, exactly like the dict the
loop updates), and the dirty flag is cleared. The source also writes the
result to the external cache; that side effect leaves the object state
untouched and is not part of the core. -/
def calculate_averages (s : IAState) : IAState :=
  { s with
    industry_avg := fun l =>
      if s.pe_by_industry l = [] then s.industry_avg l
      else some (median_of (s.pe_by_industry l))
    sector_avg := fun l =>
      if s.pe_by_sector l = [] then s.sector_avg l
      else some (median_of (s.pe_by_sector l))
    averages_calculated := true }

/-- The recompute-if-dirty step shared by every read
(industry_averages.py:63-64, 73-74, 116-117). -/
def recomputeIA (s : IAState) : IAState :=
  if s.averages_calculated then s else calculate_averages s

/-- `IndustryAverages.get_industry_average` (industry_averages.py:61-69),
returning the read value together with the possibly-recomputed state. -/
def get_industry_average (industry : Option String) (s : IAState) : Option ℚ × IAState :=
  let t := recomputeIA s
  match industry with
  | none => (none, t)
  | some i => if i = "" then (none, t) else (t.industry_avg i, t)

/-- `IndustryAverages.get_sector_average` (industry_averages.py:71-79). -/
def get_sector_average (sector : Option String) (s : IAState) : Option ℚ × IAState :=
  let t := recomputeIA s
  match sector with
  | none => (none, t)
  | some c => if c = "" then (none, t) else (t.sector_avg c, t)

/-- `IndustryAverages.get_peer_average` (industry_averages.py:81-96): the
industry average when present, else the sector average. -/
def get_peer_average (industry sector : Option String) (s : IAState) : Option ℚ × IAState :=
  let r := get_industry_average industry s
  match r.1 with
  | some v => (some v, r.2)
  | none => get_sector_average sector r.2

/-- An accumulation run: `add_company` folded over a call sequence
(industry, sector, pe) from a fresh pool, as `Screener._build_industry_averages`
does (screener.py:137-147). -/
def runAdds (calls : List (Option String × Option String × Option ℚ)) : IAState :=
  calls.foldl (fun s c => add_company c.1 c.2.1 c.2.2 s) initIA

/-- Claim C7's pool contents for one industry label: exactly the PE values
of the calls naming that label whose PE is known, positive and at most 200,
in call order. -/
def pooled_industry (calls : List (Option String × Option String × Option ℚ)) (label : String) : List ℚ :=
  calls.filterMap (fun c =>
    match c.2.2 with
    | some p => if c.1 = some label ∧ label ≠ "" ∧ 0 < p ∧ p ≤ 200 then some p else none
    | none => none)

/-- Claim C7's pool contents for one sector label. -/
def pooled_sector (calls : List (Option String × Option String × Option ℚ)) (label : String) : List ℚ :=
  calls.filterMap (fun c =>
    match c.2.2 with
    | some p => if c.2.1 = some label ∧ label ≠ "" ∧ 0 < p ∧ p ≤ 200 then some p else none
    | none => none)

/-- `ScreeningThresholds` (config.py:15-22) with its defaults. -/
structure ScreeningThresholds where
  max_pe : ℚ := 15
  min_roic : ℚ := 1/10
  roic_years : Nat := 3
  growth_years : Nat := 3
  max_debt_to_equity : ℚ := 1
  min_cf_yield : ℚ := 1/20
deriving DecidableEq, Repr

/-- The default `settings.thresholds` instance. -/
def defaultThresholds : ScreeningThresholds := {}

/-- `FilterResult` (filters.py:11-17). -/
structure FilterResult where
  passed : Bool
  reason : String
  value : Option ℚ := none
  threshold : Option ℚ := none
deriving DecidableEq, Repr

/-- `FinancialMetrics` (metrics.py:10-42). Derived fields legitimately absent
are `none`; the growth-year counts are filled in by the orchestrator. -/
structure FinancialMetrics where
  ticker : String := ""
  name : String := ""
  exchange : String := ""
  sector : Option String := none
  industry : Option String := none
  pe_ratio : Option ℚ := none
  market_cap : Option ℚ := none
  roic : Option ℚ := none
  roic_history : Option (List ℚ) := none
  revenue_growth_years : Option Nat := none
  earnings_growth_years : Option Nat := none
  debt_to_equity : Option ℚ := none
  free_cash_flow : Option ℚ := none
  cf_yield : Option ℚ := none
  ttm_revenue : Option ℚ := none
  ttm_earnings : Option ℚ := none
  has_positive_earnings : Bool := false
  data_complete : Bool := false
deriving DecidableEq, Repr

/-- The two entries of the `has_consistent_growth` dict that the screener
consumes (screener.py:179-184, 197-198, 243-244); `none` models an absent
key. The dict's other entries (consistency booleans and CAGRs) feed nothing
in the claims' code paths. -/
structure GrowthData where
  revenue_growth_years : Option Nat := none
  earnings_growth_years : Option Nat := none
deriving DecidableEq, Repr

/-- Stand-in for Python's fixed-point string formatting inside the reason
strings; the claims depend on which reason is produced, never on the digits
of the rendered numbers. -/
def pyFormat (q : ℚ) : String := toString q

/-- `StockFilters.filter_pe_below_industry` (filters.py:33-51): fail with
"PE ratio not available" when the PE is unknown; otherwise compare against
the peer average, default 20 when no peer data exists. Returns the result
together with the shared pool state a peer read may have recomputed. -/
def filter_pe_below_industry (st : IAState) (m : FinancialMetrics) : FilterResult × IAState :=
  match m.pe_ratio with
  | none => ({ passed := false, reason := "PE ratio not available" }, st)
  | some pe =>
    let (pa, st1) := get_peer_average m.industry m.sector st
    let peer_avg := pa.getD 20
    ({ passed := decide (pe < peer_avg)
       reason := "PE " ++ pyFormat pe ++ (if pe < peer_avg then " < " else " >= ")
         ++ "industry avg " ++ pyFormat peer_avg
       value := some pe
       threshold := some peer_avg }, st1)

/-- `StockFilters.filter_roic_consistent` (filters.py:53-70): an absent or
empty history is falsy and fails; otherwise count the history entries at or
above the minimum ROIC. -/
def filter_roic_consistent (th : ScreeningThresholds) (m : FinancialMetrics) : FilterResult :=
  match m.roic_history with
  | none => { passed := false, reason := "ROIC history not available" }
  | some h =>
    if h = [] then { passed := false, reason := "ROIC history not available" }
    else
      let years_above := (h.filter (fun r => th.min_roic ≤ r)).length
      { passed := decide (th.roic_years ≤ years_above)
        reason := "ROIC above minimum for " ++ toString years_above ++ " of "
          ++ toString th.roic_years ++ " years"
        value := m.roic
        threshold := some th.min_roic }

/-- `StockFilters.filter_revenue_growth` (filters.py:72-86): the externally
supplied growth-year count; `None` fails. -/
def filter_revenue_growth (th : ScreeningThresholds) (growth_years : Option Nat) : FilterResult :=
  match growth_years with
  | none => { passed := false, reason := "Revenue growth data not available" }
  | some g =>
    { passed := decide (th.growth_years ≤ g)
      reason := "Revenue growth: " ++ toString g ++ " of " ++ toString th.growth_years
        ++ " consecutive years"
      value := some (g : ℚ)
      threshold := some (th.growth_years : ℚ) }

/-- `StockFilters.filter_earnings_growth` (filters.py:88-102). -/
def filter_earnings_growth (th : ScreeningThresholds) (growth_years : Option Nat) : FilterResult :=
  match growth_years with
  | none => { passed := false, reason := "Earnings growth data not available" }
  | some g =>
    { passed := decide (th.growth_years ≤ g)
      reason := "Earnings growth: " ++ toString g ++ " of " ++ toString th.growth_years
        ++ " consecutive years"
      value := some (g : ℚ)
      threshold := some (th.growth_years : ℚ) }

/-- `StockFilters.filter_debt_to_equity` (filters.py:104-118). -/
def filter_debt_to_equity (th : ScreeningThresholds) (m : FinancialMetrics) : FilterResult :=
  match m.debt_to_equity with
  | none => { passed := false, reason := "D/E ratio not available" }
  | some d =>
    { passed := decide (d < th.max_debt_to_equity)
      reason := "D/E " ++ pyFormat d ++ (if d < th.max_debt_to_equity then " < " else " >= ")
        ++ pyFormat th.max_debt_to_equity
      value := some d
      threshold := some th.max_debt_to_equity }

/-- `StockFilters.filter_positive_fcf` (filters.py:120-134). -/
def filter_positive_fcf (m : FinancialMetrics) : FilterResult :=
  match m.free_cash_flow with
  | none => { passed := false, reason := "FCF not available" }
  | some f =>
    { passed := decide (0 < f)
      reason := "FCF: " ++ pyFormat (f / 1000000)
        ++ (if 0 < f then "M (positive)" else "M (negative)")
      value := some f
      threshold := some 0 }

/-- `StockFilters.filter_cf_yield` (filters.py:136-150). -/
def filter_cf_yield (th : ScreeningThresholds) (m : FinancialMetrics) : FilterResult :=
  match m.cf_yield with
  | none => { passed := false, reason := "CF yield not available" }
  | some c =>
    { passed := decide (th.min_cf_yield ≤ c)
      reason := "CF yield " ++ pyFormat (c * 100)
        ++ (if th.min_cf_yield ≤ c then " >= " else " < ") ++ pyFormat (th.min_cf_yield * 100)
      value := some c
      threshold := some th.min_cf_yield }

/-- `StockFilters.filter_positive_earnings` (filters.py:152-163): reads only
the `has_positive_earnings` flag; the reason embeds the TTM earnings
defaulted to 0. -/
def filter_positive_earnings (m : FinancialMetrics) : FilterResult :=
  { passed := m.has_positive_earnings
    reason := "TTM Earnings: " ++ pyFormat ((m.ttm_earnings.getD 0) / 1000000)
      ++ (if m.has_positive_earnings then "M (profitable)" else "M (loss-maker)")
    value := m.ttm_earnings
    threshold := some 0 }

/-- `Screener._calculate_score` (screener.py:207-248), the additive composite
score: each contribution is added exactly when the source's guard holds, the
PE-discount guard being `pe_result and pe_result.value and pe_result.threshold`
(Python truthiness, so a zero value or threshold skips the term). -/
def calculate_score (metrics : FinancialMetrics) (growth_data : GrowthData)
    (filter_results : List (String × FilterResult)) : ℚ :=
  let score0 : ℚ := 0
  let score1 := score0 + (match metrics.roic with
    | some r => min (r * 100) 30
    | none => 0)
  let score2 := score1 + (match alookup "pe_below_max" filter_results with
    | some pr =>
      match pr.value, pr.threshold with
      | some v, some t =>
        if v ≠ 0 ∧ t ≠ 0 then max 0 (min ((t - v) / t * 40) 20) else 0
      | _, _ => 0
    | none => 0)
  let score3 := score2 + (match metrics.cf_yield with
    | some c => min (c * 100) 20
    | none => 0)
  let score4 := score3 + (match metrics.debt_to_equity with
    | some d => max 0 (15 - d * 30)
    | none => 0)
  let rev : ℚ := (growth_data.revenue_growth_years.getD 0 : Nat)
  let earn : ℚ := (growth_data.earnings_growth_years.getD 0 : Nat)
  score4 + min ((rev + earn) * (3/2)) 15

/-- Claim C2's score formula as the claim states it: the PE-discount term
applies whenever the filter result has a value and a nonzero threshold. -/
def score_claim (metrics : FinancialMetrics) (growth_data : GrowthData)
    (filter_results : List (String × FilterResult)) : ℚ :=
  (match metrics.roic with
    | some r => min (r * 100) 30
    | none => 0)
  + (match alookup "pe_below_max" filter_results with
    | some pr =>
      match pr.value, pr.threshold with
      | some v, some t => if t ≠ 0 then max 0 (min ((t - v) / t * 40) 20) else 0
      | _, _ => 0
    | none => 0)
  + (match metrics.cf_yield with
    | some c => min (c * 100) 20
    | none => 0)
  + (match metrics.debt_to_equity with
    | some d => max 0 (15 - d * 30)
    | none => 0)
  + min (((growth_data.revenue_growth_years.getD 0 : Nat)
      + (growth_data.earnings_growth_years.getD 0 : Nat) : ℚ) * (3/2)) 15

/-- Claim C2 amended: identical except that the PE-discount term also
requires a nonzero value, matching the source's truthiness test. -/
def score_amended (metrics : FinancialMetrics) (growth_data : GrowthData)
    (filter_results : List (String × FilterResult)) : ℚ :=
  (match metrics.roic with
    | some r => min (r * 100) 30
    | none => 0)
  + (match alookup "pe_below_max" filter_results with
    | some pr =>
      match pr.value, pr.threshold with
      | some v, some t => if v ≠ 0 ∧ t ≠ 0 then max 0 (min ((t - v) / t * 40) 20) else 0
      | _, _ => 0
    | none => 0)
  + (match metrics.cf_yield with
    | some c => min (c * 100) 20
    | none => 0)
  + (match metrics.debt_to_equity with
    | some d => max 0 (15 - d * 30)
    | none => 0)
  + min (((growth_data.revenue_growth_years.getD 0 : Nat)
      + (growth_data.earnings_growth_years.getD 0 : Nat) : ℚ) * (3/2)) 15

/-- `ScreeningResult` (filters.py:166-172). -/
structure ScreeningResult where
  metrics : FinancialMetrics
  passed_all : Bool
  filter_results : List (String × FilterResult)
  score : ℚ
deriving DecidableEq, Repr

/-- The methods the `StockFilters` class defines (filters.py:33-163). -/
def stock_filters_method_names : List String :=
  ["filter_pe_below_industry", "filter_roic_consistent", "filter_revenue_growth",
   "filter_earnings_growth", "filter_debt_to_equity", "filter_positive_fcf",
   "filter_cf_yield", "filter_positive_earnings"]

/-- Python attribute dispatch on a `StockFilters` instance, restricted to the
filter methods: `none` is the `AttributeError` a lookup of an undefined name
raises. The growth filters receive the externally supplied year count `gy`;
the PE filter threads the shared pool state. -/
def dispatch_filter (name : String) (th : ScreeningThresholds) (st : IAState)
    (m : FinancialMetrics) (gy : Option Nat) : Option (FilterResult × IAState) :=
  if name = "filter_pe_below_industry" then some (filter_pe_below_industry st m)
  else if name = "filter_roic_consistent" then some (filter_roic_consistent th m, st)
  else if name = "filter_revenue_growth" then some (filter_revenue_growth th gy, st)
  else if name = "filter_earnings_growth" then some (filter_earnings_growth th gy, st)
  else if name = "filter_debt_to_equity" then some (filter_debt_to_equity th m, st)
  else if name = "filter_positive_fcf" then some (filter_positive_fcf m, st)
  else if name = "filter_cf_yield" then some (filter_cf_yield th m, st)
  else if name = "filter_positive_earnings" then some (filter_positive_earnings m, st)
  else none

/-- One `self.filters.<name>(...)` call site: the dispatched result, or the
propagated `AttributeError` when the name is not defined on the class. -/
def call_filter (name : String) (th : ScreeningThresholds) (st : IAState)
    (m : FinancialMetrics) (gy : Option Nat) : Except String (FilterResult × IAState) :=
  match dispatch_filter name th st m gy with
  | some r => Except.ok r
  | none => Except.error ("AttributeError: StockFilters object has no attribute " ++ name)

/-- `Screener._apply_filters` (screener.py:172-205), transcribing its eight
call sites with the method names the source writes — the first one is
`self.filters.filter_pe_below_max(metrics)` (screener.py:177). An exception
from any call site propagates to the caller (`_screen_companies` wraps
nothing in try/except). -/
def apply_filters (th : ScreeningThresholds) (st : IAState) (m : FinancialMetrics)
    (growth_data : GrowthData) : Except String ScreeningResult := do
  let (r1, st1) ← call_filter "filter_pe_below_max" th st m none
  let (r2, st2) ← call_filter "filter_roic_consistent" th st1 m none
  let (r3, st3) ← call_filter "filter_revenue_growth" th st2 m growth_data.revenue_growth_years
  let (r4, st4) ← call_filter "filter_earnings_growth" th st3 m growth_data.earnings_growth_years
  let (r5, st5) ← call_filter "filter_debt_to_equity" th st4 m none
  let (r6, st6) ← call_filter "filter_positive_fcf" th st5 m none
  let (r7, st7) ← call_filter "filter_cf_yield" th st6 m none
  let (r8, _) ← call_filter "filter_positive_earnings" th st7 m none
  let frs := [("pe_below_max", r1), ("roic_consistent", r2), ("revenue_growth", r3),
    ("earnings_growth", r4), ("debt_to_equity", r5), ("positive_fcf", r6),
    ("cf_yield", r7), ("positive_earnings", r8)]
  let passed_all := frs.all (fun kr => kr.2.passed)
  let score := calculate_score m growth_data frs
  let m2 := { m with
    revenue_growth_years := growth_data.revenue_growth_years
    earnings_growth_years := growth_data.earnings_growth_years }
  pure { metrics := m2, passed_all := passed_all, filter_results := frs, score := score }

/-- Four quarters, most recent first, each reporting "Total Revenue"
40, 30, 20, 10: the claim C3 example summing to 100. -/
def exQ4 : Frame :=
  [[("Total Revenue", 40)], [("Total Revenue", 30)], [("Total Revenue", 20)], [("Total Revenue", 10)]]

/-- The same four quarters with the field missing from the second one. -/
def exQ4m : Frame :=
  [[("Total Revenue", 40)], [], [("Total Revenue", 20)], [("Total Revenue", 10)]]

/-- Four quarters whose "Operating Income" values sum to exactly 0 while
their "EBIT" values also sum to 0: the claim C10 counterexample input. -/
def exOpZero : Frame :=
  [[("Operating Income", 10), ("EBIT", 3)], [("Operating Income", -10), ("EBIT", -3)],
   [("Operating Income", 5), ("EBIT", 2)], [("Operating Income", -5), ("EBIT", -2)]]

/-- Four quarters whose "Operating Cash Flow" values sum to 0 with a known
fallback field: the claim C10 witness input for the cash-flow analogue. -/
def exCfZero : Frame :=
  [[("Operating Cash Flow", 1), ("Cash Flow From Continuing Operating Activities", 7)],
   [("Operating Cash Flow", -1), ("Cash Flow From Continuing Operating Activities", 7)],
   [("Operating Cash Flow", 2), ("Cash Flow From Continuing Operating Activities", 7)],
   [("Operating Cash Flow", -2), ("Cash Flow From Continuing Operating Activities", 7)]]

/-- Annual growth frame, oldest first, revenue 80, 100, 90, 120, 130: the
newest-to-oldest walk counts two growth steps and stops at 90 < 100. -/
def exGrowth : Frame :=
  [[("Total Revenue", 80)], [("Total Revenue", 100)], [("Total Revenue", 90)],
   [("Total Revenue", 120)], [("Total Revenue", 130)]]

/-- One annual income column for the claim C5 input: EBIT 100, pretax 100,
tax 25, hence tax rate 0.25 and NOPAT 75. -/
def exFinYearC5 : Year := [("EBIT", 100), ("Pretax Income", 100), ("Tax Provision", 25)]

/-- The income frame holding just that column. -/
def exFinC5 : Frame := [exFinYearC5]

/-- One annual balance column for the claim C5 input: no "Total Debt" field,
long-term debt 50, current debt 50, equity 100. -/
def exBalYearC5 : Year := [("Long Term Debt", 50), ("Current Debt", 50), ("Total Equity", 100)]

/-- The balance frame holding just that column. -/
def exBalC5 : Frame := [exBalYearC5]

/-- One annual income column for the claim C6 counterexample: pretax income
100 (known, positive) and a known tax provision of exactly 0. -/
def exFinYearC6 : Year := [("Pretax Income", 100), ("Tax Provision", 0), ("EBIT", 40)]

/-- The income frame holding just that column. -/
def exFinC6 : Frame := [exFinYearC6]

/-- The evaluated annual column for the claim C6 NaN counterexample: pretax
income 100 reported, "Tax Provision" not reported for this period. -/
def exFinNanYearC6 : Year := [("Pretax Income", 100), ("EBIT", 40)]

/-- A two-period income frame in which "Tax Provision" is reported only in
the other period, so the evaluated column sees it as pandas NaN (the label
is in the union index but the value is missing). -/
def exFinNanC6 : Frame := [exFinNanYearC6, [("Pretax Income", 90), ("Tax Provision", 25)]]

/-- A metrics record whose derived fields are all unknown. -/
def exMetricsUnknown : FinancialMetrics := {}

/-- A filter-result map whose PE entry carries value 0 and threshold 20:
truthiness skips the code's PE term while the claim's formula awards the
full 20 points. -/
def exFrsZeroValue : List (String × FilterResult) :=
  [("pe_below_max", { passed := false, reason := "", value := some 0, threshold := some 20 })]

/-- A metrics record with a negative debt-to-equity ratio, which makes the
low-debt term exceed its nominal 15-point cap. -/
def exMetricsNegDebt : FinancialMetrics :=
  { roic := some (3/10), cf_yield := some (1/5), debt_to_equity := some (-3) }

/-- Five consecutive growth years on both series. -/
def exGrowthFive : GrowthData := { revenue_growth_years := some 5, earnings_growth_years := some 5 }

/-- A fully known metrics record used by witnesses. -/
def exMetricsKnown : FinancialMetrics :=
  { pe_ratio := some 10, roic := some (12/100), roic_history := some [12/100, 11/100, 13/100]
    debt_to_equity := some (1/2), free_cash_flow := some 5000000, cf_yield := some (6/100)
    ttm_earnings := some 3000000, has_positive_earnings := true }

lemma alookup_isSome_mem_keys {α : Type} (f : String) (y : List (String × α))
    (h : (alookup f y).isSome) : f ∈ y.map Prod.fst := by
  induction y with
  | nil => simp [alookup] at h
  | cons kv rest ih =>
    rcases kv with ⟨k, v⟩
    by_cases hk : k = f
    · simp [hk]
    · simp only [alookup, if_neg hk] at h
      simp [ih h]

lemma mem_frameIndex_of_col (qs : Frame) (y : Year) (f : String)
    (hy : y ∈ qs) (hf : f ∈ y.map Prod.fst) : f ∈ frameIndex qs := by
  simp only [frameIndex, List.mem_flatten]
  exact ⟨y.map Prod.fst, List.mem_map_of_mem _ hy, hf⟩

lemma length_filterMap_of_all {α β : Type} (g : α → Option β) (l : List α)
    (h : ∀ a ∈ l, (g a).isSome) : (l.filterMap g).length = l.length := by
  induction l with
  | nil => rfl
  | cons a rest ih =>
    have ha := h a (by simp)
    rcases hb : g a with _ | b
    · rw [hb] at ha; simp at ha
    · simp only [List.filterMap_cons, hb, List.length_cons]
      rw [ih (fun x hx => h x (by simp [hx]))]

lemma length_filterMap_lt_of_missing {α β : Type} (g : α → Option β) (l : List α)
    (h : ∃ a ∈ l, g a = none) : (l.filterMap g).length < l.length := by
  induction l with
  | nil => simp at h
  | cons a rest ih =>
    rcases hb : g a with _ | b
    · simp only [List.filterMap_cons, hb, List.length_cons]
      have := List.length_filterMap_le g rest
      omega
    · rcases h with ⟨x, hx, hxnone⟩
      rcases List.mem_cons.mp hx with rfl | hx2
      · rw [hb] at hxnone; cases hxnone
      · simp only [List.filterMap_cons, hb, List.length_cons]
        have := ih ⟨x, hx2, hxnone⟩
        omega

/-- C3 (amended): for every quarterly series, field and positive window size,
`_sum_quarters` returns the sum over the `n` most recent periods if and only
if the series has at least `n` periods and the field is present in all `n`
of them, and unknown in every other case — the positivity restriction on the
window being the one correction the counterexample forces. -/
theorem sum_quarters_contract_pos_window :
    ∀ (qs : Frame) (field : String) (n : Nat), 1 ≤ n →
      sum_quarters qs field n = sum_quarters_claim qs field n := by
  intro qs field n hn
  rcases qs with _ | ⟨y, ys⟩
  · have h0 : n ≠ 0 := by omega
    simp [sum_quarters, sum_quarters_claim, h0]
  · by_cases hlen : ys.length + 1 < n
    · have h1 : ¬ n ≤ ys.length + 1 := by omega
      simp [sum_quarters, sum_quarters_claim, hlen, h1]
    · have hle : n ≤ ys.length + 1 := by omega
      have hlen2 : ¬ (y :: ys).length < n := by simp; omega
      have hle2 : n ≤ (y :: ys).length := by simp; omega
      by_cases hall : ((y :: ys).take n).all (fun yy => (alookup field yy).isSome)
      · have htake1 : y ∈ (y :: ys).take n := by
          rcases n with _ | n2
          · omega
          · simp [List.take_succ_cons]
        have hy : (alookup field y).isSome := by
          have := (List.all_eq_true.mp hall) y htake1
          simpa using this
        have hidx : field ∈ frameIndex (y :: ys) :=
          mem_frameIndex_of_col _ y field (by simp) (alookup_isSome_mem_keys field y hy)
        have hvlen : (((y :: ys).take n).filterMap (alookup field)).length = n := by
          rw [length_filterMap_of_all (alookup field) _
            (fun a ha => (List.all_eq_true.mp hall) a ha)]
          exact List.length_take_of_le hle2
        simp [sum_quarters, sum_quarters_claim, hlen, hle, hall, hidx, hvlen]
      · by_cases hidx : field ∈ frameIndex (y :: ys)
        · have hmiss : ∃ a ∈ (y :: ys).take n, alookup field a = none := by
            have h := List.all_eq_true.not.mp hall
            push_neg at h
            rcases h with ⟨a, ha, hna⟩
            rcases halo : alookup field a with _ | v
            · exact ⟨a, ha, halo⟩
            · rw [halo] at hna; simp at hna
          have hvlen : (((y :: ys).take n).filterMap (alookup field)).length < n := by
            have := length_filterMap_lt_of_missing (alookup field) _ hmiss
            rwa [List.length_take_of_le hle2] at this
          simp only [sum_quarters, sum_quarters_claim]
          rw [if_neg (by simp), if_neg hlen2, if_pos hidx, if_pos hvlen,
            if_neg (by simp only [List.all_eq_true] at hall ⊢; tauto)]
        · simp only [sum_quarters, sum_quarters_claim]
          rw [if_neg (by simp), if_neg hlen2, if_neg hidx,
            if_neg ?_]
          intro hcond
          rcases hcond with ⟨hc1, hc2⟩
          rcases n with _ | n2
          · omega
          · have htake1 : y ∈ (y :: ys).take (n2 + 1) := by simp [List.take_succ_cons]
            have hy : (alookup field y).isSome := by
              have := (List.all_eq_true.mp hc2) y htake1
              simpa using this
            exact hidx (mem_frameIndex_of_col _ y field (by simp)
              (alookup_isSome_mem_keys field y hy))

/-- Witness for C3's amended contract at the claim's own example: four known
quarters 10, 20, 30, 40 sum to 100, and knocking one out gives unknown,
never a partial sum. -/
theorem sum_quarters_contract_witness :
    (1 ≤ 4 ∧ sum_quarters exQ4 "Total Revenue" 4 = sum_quarters_claim exQ4 "Total Revenue" 4)
    ∧ sum_quarters exQ4 "Total Revenue" 4 = some 100
    ∧ sum_quarters exQ4m "Total Revenue" 4 = none := by
  refine ⟨⟨by norm_num, sum_quarters_contract_pos_window exQ4 "Total Revenue" 4 (by norm_num)⟩, ?_, ?_⟩
  · simp [sum_quarters, frameIndex, alookup, exQ4, List.filterMap_cons]
    norm_num
  · simp [sum_quarters, frameIndex, alookup, exQ4m, List.filterMap_cons]

/-- Counterexample to C3 as frozen: at window size 0 with an empty series,
the claimed contract demands the empty sum 0 (zero periods are available and
the field is vacuously present in all of them) while the code returns
unknown. -/
theorem sum_quarters_zero_window_cex :
    sum_quarters [] "Total Revenue" 0 = none
    ∧ sum_quarters_claim [] "Total Revenue" 0 = some 0 := by
  constructor
  · simp [sum_quarters]
  · simp [sum_quarters_claim]

lemma growth_steps_eq_takeWhile : ∀ l : List ℚ,
    growth_steps l = ((l.zip l.tail).takeWhile (fun cp => decide (cp.2 > 0 ∧ cp.1 > cp.2))).length := by
  intro l
  induction l with
  | nil => rfl
  | cons c rest ih =>
    cases rest with
    | nil => rfl
    | cons p rest2 =>
      by_cases h : p > 0 ∧ c > p
      · simp only [growth_steps, if_pos h, List.tail_cons, List.zip_cons_cons,
          List.takeWhile_cons, decide_eq_true_eq, h, and_self, if_pos, List.length_cons]
        rw [ih]
        simp
      · simp only [growth_steps, if_neg h, List.tail_cons, List.zip_cons_cons,
          List.takeWhile_cons]
        rw [if_neg (by simpa using h)]
        simp

/-- C4: `count_consecutive_growth_years` walks the observed values newest to
oldest and returns the number of initial steps with previous value positive
and current value strictly greater, stopping at the first violation; a
missing series, and any series of fewer than 2 observed points, give 0. -/
theorem growth_count_matches_claim :
    ∀ (annual_financials : Option Frame) (field : String),
      (∀ s, metric_series annual_financials field = some s →
        count_consecutive_growth_years annual_financials field = growth_count_claim s)
      ∧ (∀ s, metric_series annual_financials field = some s → s.length < 2 →
        count_consecutive_growth_years annual_financials field = 0)
      ∧ (metric_series annual_financials field = none →
        count_consecutive_growth_years annual_financials field = 0) := by
  intro af field
  refine ⟨?_, ?_, ?_⟩
  · intro s hs
    simp only [count_consecutive_growth_years, hs]
    by_cases hlen : s.length < 2
    · rw [if_pos hlen]
      rcases s with _ | ⟨a, _ | ⟨b, t⟩⟩
      · rfl
      · rfl
      · simp only [List.length_cons] at hlen; omega
    · rw [if_neg hlen, growth_count_claim, growth_steps_eq_takeWhile]
  · intro s hs hlen
    simp [count_consecutive_growth_years, hs, hlen]
  · intro hnone
    simp [count_consecutive_growth_years, hnone]

/-- Witness for C4 at the spec's series 80, 100, 90, 120, 130 (oldest first):
the newest-to-oldest walk counts the steps 130 > 120 and 120 > 90 and stops
at 90 < 100, giving 2. -/
theorem growth_count_witness :
    count_consecutive_growth_years (some exGrowth) "Total Revenue"
      = growth_count_claim [80, 100, 90, 120, 130]
    ∧ count_consecutive_growth_years (some exGrowth) "Total Revenue" = 2 := by
  have hs : metric_series (some exGrowth) "Total Revenue" = some [80, 100, 90, 120, 130] := by
    simp [metric_series, frameIndex, alookup, exGrowth, List.filterMap_cons]
  refine ⟨(growth_count_matches_claim (some exGrowth) "Total Revenue").1 _ hs, ?_⟩
  rw [(growth_count_matches_claim (some exGrowth) "Total Revenue").1 _ hs]
  simp [growth_count_claim, List.takeWhile]
  norm_num

/-- C10 (amended): whenever the four most recent quarters of the income
frame sum "Operating Income" to exactly 0, `get_ttm_operating_income`
falls back and returns exactly the "EBIT" TTM sum (so `None` when that is
unavailable, and still 0 in the corner where the EBIT quarters also sum to
0); `get_ttm_operating_cashflow` behaves the same way across its two field
names. -/
theorem ttm_operating_income_fallback :
    ∀ (qf qc : Option Frame),
      (sum_quarters_opt qf "Operating Income" 4 = some 0 →
        get_ttm_operating_income qf = sum_quarters_opt qf "EBIT" 4)
      ∧ (sum_quarters_opt qc "Operating Cash Flow" 4 = some 0 →
        get_ttm_operating_cashflow qc
          = sum_quarters_opt qc "Cash Flow From Continuing Operating Activities" 4) := by
  intro qf qc
  constructor
  · intro h
    simp [get_ttm_operating_income, opt_or, h]
  · intro h
    simp [get_ttm_operating_cashflow, opt_or, h]

/-- Witness for C10's amended fallback at concrete frames whose primary
field sums to 0 over the four most recent quarters. -/
theorem ttm_operating_income_fallback_witness :
    (sum_quarters_opt (some exOpZero) "Operating Income" 4 = some 0
      ∧ get_ttm_operating_income (some exOpZero) = sum_quarters_opt (some exOpZero) "EBIT" 4)
    ∧ (sum_quarters_opt (some exCfZero) "Operating Cash Flow" 4 = some 0
      ∧ get_ttm_operating_cashflow (some exCfZero)
          = sum_quarters_opt (some exCfZero) "Cash Flow From Continuing Operating Activities" 4) := by
  have h1 : sum_quarters_opt (some exOpZero) "Operating Income" 4 = some 0 := by
    simp [sum_quarters_opt, sum_quarters, frameIndex, alookup, exOpZero, List.filterMap_cons]
  have h2 : sum_quarters_opt (some exCfZero) "Operating Cash Flow" 4 = some 0 := by
    simp [sum_quarters_opt, sum_quarters, frameIndex, alookup, exCfZero, List.filterMap_cons]
  exact ⟨⟨h1, (ttm_operating_income_fallback (some exOpZero) (some exCfZero)).1 h1⟩,
    ⟨h2, (ttm_operating_income_fallback (some exOpZero) (some exCfZero)).2 h2⟩⟩

/-- Counterexample to C10 as frozen: four most recent quarters all report
"Operating Income" with sum exactly 0, yet `get_ttm_operating_income`
returns 0 (the claim asserts it never does) because the "EBIT" quarters sum
to 0 as well. -/
theorem ttm_operating_income_zero_cex :
    (exOpZero.take 4).all (fun y => (alookup "Operating Income" y).isSome) = true
    ∧ sum_quarters exOpZero "Operating Income" 4 = some 0
    ∧ get_ttm_operating_income (some exOpZero) = some 0 := by
  refine ⟨by simp [exOpZero, alookup], ?_, ?_⟩
  · simp [sum_quarters, frameIndex, alookup, exOpZero, List.filterMap_cons]
  · simp [get_ttm_operating_income, sum_quarters_opt, opt_or, sum_quarters, frameIndex,
      alookup, exOpZero, List.filterMap_cons]

/-- C5: at a balance sheet with no "Total Debt" field, long-term debt 50,
current debt 50, equity 100 (and EBIT 100, pretax 100, tax 25, so NOPAT 75),
`calculate_roic` returns 75 / 150 = 1/2: its fallback expression
`(bal.get("Total Debt") or 0) + (bal.get("Long Term Debt") or 0)` drops the
"Current Debt" component, while the claimed invested capital — as
`calculate_debt_to_equity` also computes it — is 50 + 50 + 100 = 200,
giving 75 / 200 = 3/8. -/
theorem calculate_roic_drops_current_debt :
    calculate_roic (some exFinC5) (some exBalC5) 0 = PyF.num (1/2)
    ∧ invested_capital_claim exBalYearC5 = some 200
    ∧ (75 : ℚ) / 200 ≠ 1/2 := by
  refine ⟨?_, ?_, by norm_num⟩
  · simp [calculate_roic, effective_tax_rate, colGet, alookup, frameIndex, pyOr,
      PyF.truthy, PyF.isna, PyF.add, PyF.sub, PyF.mul, PyF.div, PyF.absF, PyF.gtZero,
      PyF.leZero, pyMax, pyMin, exFinC5, exBalC5, exFinYearC5, exBalYearC5]
    norm_num
  · simp [invested_capital_claim, alookup, exBalYearC5, Option.orElse]
    norm_num

/-- Counterexample to C6 as frozen, at two inputs. First, pretax income
100 (known, positive) with a known tax provision of exactly 0: the claim's
rate is |0| / 100 = 0, but the code's truthiness test
`pretax and tax and pretax > 0` treats the zero provision as missing and
applies the default 0.25. Second, pretax income 100 with "Tax Provision"
reported only in another period (pandas NaN for the evaluated one): the
provision is not known, so the claim demands the default 0.25, but NaN is
truthy and the code computes `min(max(|NaN| / 100, 0), 0.5)` = NaN — a NaN
rate, neither the quotient nor the default. -/
theorem effective_tax_rate_claim_cex :
    (alookup "Pretax Income" exFinYearC6 = some 100
      ∧ alookup "Tax Provision" exFinYearC6 = some 0
      ∧ effective_tax_rate exFinC6 exFinYearC6 = PyF.num (1/4)
      ∧ tax_rate_claim (some 100) (some 0) = 0)
    ∧ (alookup "Pretax Income" exFinNanYearC6 = some 100
      ∧ alookup "Tax Provision" exFinNanYearC6 = none
      ∧ colGet exFinNanC6 exFinNanYearC6 "Tax Provision" = PyF.nan
      ∧ effective_tax_rate exFinNanC6 exFinNanYearC6 = PyF.nan
      ∧ tax_rate_claim (some 100) none = 1/4
      ∧ PyF.nan ≠ PyF.num (1/4)) := by
  refine ⟨⟨by simp [alookup, exFinYearC6], by simp [alookup, exFinYearC6], ?_, ?_⟩,
    by simp [alookup, exFinNanYearC6], by simp [alookup, exFinNanYearC6], ?_, ?_, ?_, by simp⟩
  · simp [effective_tax_rate, colGet, alookup, frameIndex, pyOr, PyF.truthy,
      PyF.gtZero, PyF.absF, PyF.div, pyMax, pyMin, exFinC6, exFinYearC6]
  · simp [tax_rate_claim]
  · simp [colGet, alookup, frameIndex, exFinNanC6, exFinNanYearC6]
  · simp [effective_tax_rate, colGet, alookup, frameIndex, pyOr, PyF.truthy,
      PyF.gtZero, PyF.absF, PyF.div, pyMax, pyMin, exFinNanC6, exFinNanYearC6]
  · simp [tax_rate_claim]

/-- C6 (amended): for every frame and evaluated column, the effective tax
rate is exactly `tax_rate_amended` of the two lookups — the clamped
|tax| / pretax when pretax income and the (possibly
"Income Tax Expense"-fallback) tax provision are known numbers, the tax
value is nonzero and pretax income is strictly positive; the fixed default
0.25 when pretax or the tax value is missing or zero, or pretax is not
positive; and a NaN rate when the tax slot is pandas-NaN with a known
positive pretax (NaN is truthy, and NaN propagates through the clamp). -/
theorem effective_tax_rate_amended :
    ∀ (qs : Frame) (fin : Year),
      effective_tax_rate qs fin
        = tax_rate_amended (colGet qs fin "Pretax Income")
            (pyOr (colGet qs fin "Tax Provision") (colGet qs fin "Income Tax Expense")) := by
  intro qs fin
  simp only [effective_tax_rate]
  generalize colGet qs fin "Pretax Income" = px
  generalize pyOr (colGet qs fin "Tax Provision") (colGet qs fin "Income Tax Expense") = tx
  rcases px with p | _ | _ <;> rcases tx with t | _ | _
  · by_cases hp : 0 < p
    · by_cases ht : t = 0
      · simp [tax_rate_amended, PyF.truthy, PyF.gtZero, hp, ht]
      · simp [tax_rate_amended, PyF.truthy, PyF.gtZero, PyF.absF, PyF.div, pyMax, pyMin,
          hp, ht, hp.ne.symm]
    · by_cases ht : t = 0
      · simp [tax_rate_amended, PyF.truthy, PyF.gtZero, hp, ht]
      · simp [tax_rate_amended, PyF.truthy, PyF.gtZero, hp, ht]
  · by_cases hp : 0 < p
    · have hpne : p ≠ 0 := hp.ne.symm
      simp [tax_rate_amended, PyF.truthy, PyF.gtZero, PyF.absF, PyF.div, pyMax, pyMin,
        hp, hpne]
    · by_cases hp0 : p = 0
      · simp [tax_rate_amended, PyF.truthy, PyF.gtZero, hp, hp0]
      · simp [tax_rate_amended, PyF.truthy, PyF.gtZero, hp, hp0]
  · simp [tax_rate_amended, PyF.truthy, PyF.gtZero]
  · simp [tax_rate_amended, PyF.truthy, PyF.gtZero]
  · simp [tax_rate_amended, PyF.truthy, PyF.gtZero]
  · simp [tax_rate_amended, PyF.truthy, PyF.gtZero]
  · simp [tax_rate_amended, PyF.truthy, PyF.gtZero]
  · simp [tax_rate_amended, PyF.truthy, PyF.gtZero]
  · simp [tax_rate_amended, PyF.truthy, PyF.gtZero]

/-- The industry-bucket contribution of one `add_company` call. -/
def pooled_ind_one (c : Option String × Option String × Option ℚ) (label : String) : List ℚ :=
  match c.2.2 with
  | some p => if c.1 = some label ∧ label ≠ "" ∧ 0 < p ∧ p ≤ 200 then [p] else []
  | none => []

/-- The sector-bucket contribution of one `add_company` call. -/
def pooled_sec_one (c : Option String × Option String × Option ℚ) (label : String) : List ℚ :=
  match c.2.2 with
  | some p => if c.2.1 = some label ∧ label ≠ "" ∧ 0 < p ∧ p ≤ 200 then [p] else []
  | none => []

lemma not_outlier_of_bounds {p : ℚ} (hp : ¬ (p ≤ 0 ∨ 200 < p)) : 0 < p ∧ p ≤ 200 := by
  push_neg at hp
  exact hp

lemma add_company_bucket_industry (c : Option String × Option String × Option ℚ)
    (s : IAState) (label : String) :
    (add_company c.1 c.2.1 c.2.2 s).pe_by_industry label
      = s.pe_by_industry label ++ pooled_ind_one c label := by
  rcases c with ⟨ind, sec, pe⟩
  rcases pe with _ | p
  · simp [add_company, pooled_ind_one]
  · by_cases hp : p ≤ 0 ∨ 200 < p
    · have hc : ¬ (ind = some label ∧ label ≠ "" ∧ 0 < p ∧ p ≤ 200) := by
        rintro ⟨-, -, h1, h2⟩
        rcases hp with h | h <;> linarith
      simp [add_company, hp, pooled_ind_one, hc]
    · have hp2 := not_outlier_of_bounds hp
      by_cases hm : strTruthy ind = true ∧ ind = some label
      · have hne : label ≠ "" := by
          have := hm.1
          rw [hm.2] at this
          simpa [strTruthy] using this
        have hc : ind = some label ∧ label ≠ "" ∧ 0 < p ∧ p ≤ 200 :=
          ⟨hm.2, hne, hp2.1, hp2.2⟩
        simp [add_company, hp, pooled_ind_one, hm, hc, strTruthy, hne]
      · have hc : ¬ (ind = some label ∧ label ≠ "" ∧ 0 < p ∧ p ≤ 200) := by
          rintro ⟨he, hne, -, -⟩
          exact hm ⟨by simp [strTruthy, he, hne], he⟩
        simp [add_company, hp, pooled_ind_one, hm, hc]

lemma add_company_bucket_sector (c : Option String × Option String × Option ℚ)
    (s : IAState) (label : String) :
    (add_company c.1 c.2.1 c.2.2 s).pe_by_sector label
      = s.pe_by_sector label ++ pooled_sec_one c label := by
  rcases c with ⟨ind, sec, pe⟩
  rcases pe with _ | p
  · simp [add_company, pooled_sec_one]
  · by_cases hp : p ≤ 0 ∨ 200 < p
    · have hc : ¬ (sec = some label ∧ label ≠ "" ∧ 0 < p ∧ p ≤ 200) := by
        rintro ⟨-, -, h1, h2⟩
        rcases hp with h | h <;> linarith
      simp [add_company, hp, pooled_sec_one, hc]
    · have hp2 := not_outlier_of_bounds hp
      by_cases hm : strTruthy sec = true ∧ sec = some label
      · have hne : label ≠ "" := by
          have := hm.1
          rw [hm.2] at this
          simpa [strTruthy] using this
        have hc : sec = some label ∧ label ≠ "" ∧ 0 < p ∧ p ≤ 200 :=
          ⟨hm.2, hne, hp2.1, hp2.2⟩
        simp [add_company, hp, pooled_sec_one, hm, hc, strTruthy, hne]
      · have hc : ¬ (sec = some label ∧ label ≠ "" ∧ 0 < p ∧ p ≤ 200) := by
          rintro ⟨he, hne, -, -⟩
          exact hm ⟨by simp [strTruthy, he, hne], he⟩
        simp [add_company, hp, pooled_sec_one, hm, hc]

lemma add_company_flag_avgs (ind sec : Option String) (pe : Option ℚ) (s : IAState) :
    ((add_company ind sec pe s).averages_calculated = true → s.averages_calculated = true)
    ∧ (add_company ind sec pe s).industry_avg = s.industry_avg
    ∧ (add_company ind sec pe s).sector_avg = s.sector_avg := by
  rcases pe with _ | p
  · simp [add_company]
  · by_cases hp : p ≤ 0 ∨ 200 < p
    · simp [add_company, hp]
    · simp [add_company, hp]

lemma pooled_industry_cons (c : Option String × Option String × Option ℚ)
    (cs : List (Option String × Option String × Option ℚ)) (label : String) :
    pooled_industry (c :: cs) label = pooled_ind_one c label ++ pooled_industry cs label := by
  rcases c with ⟨ind, sec, pe⟩
  rcases pe with _ | p
  · simp [pooled_industry, pooled_ind_one, List.filterMap_cons]
  · by_cases hc : ind = some label ∧ label ≠ "" ∧ 0 < p ∧ p ≤ 200
    · simp [pooled_industry, pooled_ind_one, List.filterMap_cons, hc]
    · simp [pooled_industry, pooled_ind_one, List.filterMap_cons, hc]

lemma pooled_sector_cons (c : Option String × Option String × Option ℚ)
    (cs : List (Option String × Option String × Option ℚ)) (label : String) :
    pooled_sector (c :: cs) label = pooled_sec_one c label ++ pooled_sector cs label := by
  rcases c with ⟨ind, sec, pe⟩
  rcases pe with _ | p
  · simp [pooled_sector, pooled_sec_one, List.filterMap_cons]
  · by_cases hc : sec = some label ∧ label ≠ "" ∧ 0 < p ∧ p ≤ 200
    · simp [pooled_sector, pooled_sec_one, List.filterMap_cons, hc]
    · simp [pooled_sector, pooled_sec_one, List.filterMap_cons, hc]

lemma foldl_add_state : ∀ (calls : List (Option String × Option String × Option ℚ))
    (s : IAState) (label : String),
    (calls.foldl (fun st c => add_company c.1 c.2.1 c.2.2 st) s).pe_by_industry label
      = s.pe_by_industry label ++ pooled_industry calls label
    ∧ (calls.foldl (fun st c => add_company c.1 c.2.1 c.2.2 st) s).pe_by_sector label
      = s.pe_by_sector label ++ pooled_sector calls label
    ∧ ((calls.foldl (fun st c => add_company c.1 c.2.1 c.2.2 st) s).averages_calculated = true
        → s.averages_calculated = true)
    ∧ (calls.foldl (fun st c => add_company c.1 c.2.1 c.2.2 st) s).industry_avg = s.industry_avg
    ∧ (calls.foldl (fun st c => add_company c.1 c.2.1 c.2.2 st) s).sector_avg = s.sector_avg := by
  intro calls
  induction calls with
  | nil =>
    intro s label
    simp [pooled_industry, pooled_sector]
  | cons c cs ih =>
    intro s label
    have hstep := add_company_flag_avgs c.1 c.2.1 c.2.2 s
    refine ⟨?_, ?_, ?_, ?_, ?_⟩
    · rw [List.foldl_cons, (ih _ label).1, add_company_bucket_industry,
        pooled_industry_cons, List.append_assoc]
    · rw [List.foldl_cons, (ih _ label).2.1, add_company_bucket_sector,
        pooled_sector_cons, List.append_assoc]
    · intro h
      exact hstep.1 ((ih _ label).2.2.1 (by rw [List.foldl_cons] at h; exact h))
    · rw [List.foldl_cons, (ih _ label).2.2.2.1, hstep.2.1]
    · rw [List.foldl_cons, (ih _ label).2.2.2.2, hstep.2.2]

lemma runAdds_state (calls : List (Option String × Option String × Option ℚ)) (label : String) :
    (runAdds calls).pe_by_industry label = pooled_industry calls label
    ∧ (runAdds calls).pe_by_sector label = pooled_sector calls label
    ∧ (runAdds calls).averages_calculated = false
    ∧ (runAdds calls).industry_avg label = none
    ∧ (runAdds calls).sector_avg label = none := by
  have h := foldl_add_state calls initIA label
  refine ⟨by simpa [initIA] using h.1, by simpa [initIA] using h.2.1, ?_, ?_, ?_⟩
  · rcases hf : (runAdds calls).averages_calculated
    · rfl
    · have := h.2.2.1 (by rw [runAdds] at hf; exact hf)
      simp [initIA] at this
  · have h2 := h.2.2.2.1
    rw [runAdds, h2]
    rfl
  · have h2 := h.2.2.2.2
    rw [runAdds, h2]
    rfl

/-- C7: after any sequence of `add_company` calls on a fresh pool, each
bucket holds exactly the known, positive, at-most-200 PE values of the calls
naming its label (unknown, non-positive and above-200 PEs are never pooled),
and each industry (or sector) average read afterwards is exactly the median
of that pool, the median of an even-sized pool being the mean of its two
central values: median [8, 12, 15, 20] = 13.5 and median [8, 12, 15] = 12. -/
theorem industry_averages_pool_median :
    ∀ (calls : List (Option String × Option String × Option ℚ)) (label : String),
      (runAdds calls).pe_by_industry label = pooled_industry calls label
      ∧ (runAdds calls).pe_by_sector label = pooled_sector calls label
      ∧ (get_industry_average (some label) (runAdds calls)).1
          = (if pooled_industry calls label = [] then none
             else some (median_of (pooled_industry calls label)))
      ∧ (get_sector_average (some label) (runAdds calls)).1
          = (if pooled_sector calls label = [] then none
             else some (median_of (pooled_sector calls label)))
      ∧ median_of [8, 12, 15, 20] = 27/2 ∧ median_of [8, 12, 15] = 12 := by
  intro calls label
  have h := runAdds_state calls label
  refine ⟨h.1, h.2.1, ?_, ?_, ?_, ?_⟩
  · by_cases hlab : label = ""
    · subst hlab
      have hpool : pooled_industry calls "" = [] := by
        simp only [pooled_industry, List.filterMap_eq_nil_iff]
        intro c hc
        rcases c with ⟨i, se, pe⟩
        rcases pe with _ | p <;> simp
      simp [get_industry_average, hpool]
    · simp only [get_industry_average, recomputeIA, h.2.2.1, Bool.false_eq_true,
        if_false, if_neg hlab]
      simp [calculate_averages, h.1, h.2.2.2.1]
  · by_cases hlab : label = ""
    · subst hlab
      have hpool : pooled_sector calls "" = [] := by
        simp only [pooled_sector, List.filterMap_eq_nil_iff]
        intro c hc
        rcases c with ⟨i, se, pe⟩
        rcases pe with _ | p <;> simp
      simp [get_sector_average, hpool]
    · simp only [get_sector_average, recomputeIA, h.2.2.1, Bool.false_eq_true,
        if_false, if_neg hlab]
      simp [calculate_averages, h.2.1, h.2.2.2.2]
  · simp [median_of, List.insertionSort, List.orderedInsert]
    norm_num
  · simp [median_of, List.insertionSort, List.orderedInsert]
    norm_num

lemma recomputeIA_calculated (s : IAState) : (recomputeIA s).averages_calculated = true := by
  unfold recomputeIA
  by_cases h : s.averages_calculated <;> simp [h, calculate_averages]

lemma recomputeIA_of_calculated (s : IAState) (h : s.averages_calculated = true) :
    recomputeIA s = s := by
  simp [recomputeIA, h]

lemma recomputeIA_idem (s : IAState) : recomputeIA (recomputeIA s) = recomputeIA s :=
  recomputeIA_of_calculated _ (recomputeIA_calculated s)

lemma get_industry_average_snd (ind : Option String) (s : IAState) :
    (get_industry_average ind s).2 = recomputeIA s := by
  unfold get_industry_average
  rcases ind with _ | i
  · rfl
  · by_cases h : i = "" <;> simp [h]

lemma get_sector_average_snd (sec : Option String) (s : IAState) :
    (get_sector_average sec s).2 = recomputeIA s := by
  unfold get_sector_average
  rcases sec with _ | c
  · rfl
  · by_cases h : c = "" <;> simp [h]

lemma get_industry_average_recompute (ind : Option String) (s : IAState) :
    get_industry_average ind (recomputeIA s) = ((get_industry_average ind s).1, recomputeIA s) := by
  unfold get_industry_average
  rw [recomputeIA_idem]
  rcases ind with _ | i
  · rfl
  · by_cases h : i = "" <;> simp [h]

lemma get_sector_average_recompute (sec : Option String) (s : IAState) :
    get_sector_average sec (recomputeIA s) = ((get_sector_average sec s).1, recomputeIA s) := by
  unfold get_sector_average
  rw [recomputeIA_idem]
  rcases sec with _ | c
  · rfl
  · by_cases h : c = "" <;> simp [h]

/-- C9: two consecutive `get_peer_average` reads with no intervening
`add_company` return the same value — the lazy recomputation a first read
may trigger leaves a state whose second read serves the identical answer. -/
theorem get_peer_average_idempotent :
    ∀ (s : IAState) (industry sector : Option String),
      (get_peer_average industry sector (get_peer_average industry sector s).2).1
        = (get_peer_average industry sector s).1 := by
  intro s ind sec
  unfold get_peer_average
  rcases hv : (get_industry_average ind s).1 with _ | v
  · -- industry average absent: both reads fall back to the sector average
    simp only [hv, get_industry_average_snd, get_sector_average_snd,
      get_industry_average_recompute, recomputeIA_idem, hv]
  · -- industry average present in the first read, hence in the second
    simp only [hv, get_industry_average_snd, get_industry_average_recompute]

lemma score_term_roic_le (o : Option ℚ) :
    (match o with | some r => min (r * 100) 30 | none => (0 : ℚ)) ≤ 30 := by
  rcases o with _ | r
  · norm_num
  · exact min_le_right _ _

lemma score_term_pe_le (o : Option FilterResult) :
    (match o with
      | some pr =>
        match pr.value, pr.threshold with
        | some v, some t =>
          if v ≠ 0 ∧ t ≠ 0 then max 0 (min ((t - v) / t * 40) 20) else (0 : ℚ)
        | _, _ => (0 : ℚ)
      | none => (0 : ℚ)) ≤ 20 := by
  rcases o with _ | pr
  · norm_num
  · show (match pr.value, pr.threshold with
      | some v, some t =>
        if v ≠ 0 ∧ t ≠ 0 then max (0 : ℚ) (min ((t - v) / t * 40) 20) else (0 : ℚ)
      | _, _ => (0 : ℚ)) ≤ (20 : ℚ)
    rcases hv : pr.value with _ | v <;> rcases ht : pr.threshold with _ | t
    · show (0 : ℚ) ≤ 20
      norm_num
    · show (0 : ℚ) ≤ 20
      norm_num
    · show (0 : ℚ) ≤ 20
      norm_num
    · show (if v ≠ 0 ∧ t ≠ 0 then max 0 (min ((t - v) / t * 40) 20) else (0 : ℚ)) ≤ 20
      by_cases hc : v ≠ 0 ∧ t ≠ 0
      · simp only [if_pos hc]
        exact max_le (by norm_num) (min_le_right _ _)
      · simp only [if_neg hc]
        norm_num

lemma score_term_cf_le (o : Option ℚ) :
    (match o with | some c => min (c * 100) 20 | none => (0 : ℚ)) ≤ 20 := by
  rcases o with _ | c
  · norm_num
  · exact min_le_right _ _

lemma score_term_de_le (o : Option ℚ) (h : ∀ d, o = some d → 0 ≤ d) :
    (match o with | some d => max 0 (15 - d * 30) | none => (0 : ℚ)) ≤ 15 := by
  rcases o with _ | d
  · norm_num
  · have hd : 0 ≤ d := h d rfl
    have : 15 - d * 30 ≤ 15 := by nlinarith
    exact max_le (by norm_num) this

/-- C2 (amended): the composite score is exactly the sum of the five
independently clamped terms, the PE-discount term applying only when the
PE filter result has a nonzero value and a nonzero threshold (the source's
truthiness test); and the score is at most 100 whenever the known
debt-to-equity ratio is nonnegative (a negative ratio lets the low-debt
term grow past its nominal 15 points). -/
theorem calculate_score_amended_correct :
    ∀ (m : FinancialMetrics) (g : GrowthData) (frs : List (String × FilterResult)),
      calculate_score m g frs = score_amended m g frs
      ∧ ((∀ d, m.debt_to_equity = some d → 0 ≤ d) → calculate_score m g frs ≤ 100) := by
  intro m g frs
  have heq : calculate_score m g frs = score_amended m g frs := by
    simp only [calculate_score, score_amended, zero_add]
  refine ⟨heq, ?_⟩
  intro hd
  rw [heq]
  unfold score_amended
  have h1 := score_term_roic_le m.roic
  have h2 := score_term_pe_le (alookup "pe_below_max" frs)
  have h3 := score_term_cf_le m.cf_yield
  have h4 := score_term_de_le m.debt_to_equity hd
  have h5 : min (((g.revenue_growth_years.getD 0 : Nat)
      + (g.earnings_growth_years.getD 0 : Nat) : ℚ) * (3/2)) 15 ≤ 15 := min_le_right _ _
  linarith

/-- Witness for C2's amended score at a fully known metrics record with
nonnegative debt-to-equity. -/
theorem calculate_score_amended_witness :
    calculate_score exMetricsKnown exGrowthFive [] = score_amended exMetricsKnown exGrowthFive []
    ∧ calculate_score exMetricsKnown exGrowthFive [] ≤ 100 := by
  refine ⟨(calculate_score_amended_correct exMetricsKnown exGrowthFive []).1,
    (calculate_score_amended_correct exMetricsKnown exGrowthFive []).2 ?_⟩
  intro d hdm
  have : d = 1/2 := by
    have hm : exMetricsKnown.debt_to_equity = some (1/2) := rfl
    rw [hm] at hdm
    exact (Option.some.injEq _ _).mp hdm.symm
  rw [this]
  norm_num

/-- Counterexample to C2 as frozen, at two inputs. First, a filter-result
map whose PE entry has value 0 and threshold 20: the claim's formula awards
clamp(((20 - 0) / 20) * 40, 0, 20) = 20 points, but the code's truthiness
test drops the term and scores 0. Second, a metrics record with
debt-to-equity -3 (ROIC 30%, CF yield 20%, five growth years each): the
score is 170, refuting the claim's closing assertion that every score is at
most 100. -/
theorem calculate_score_claim_cex :
    calculate_score exMetricsUnknown {} exFrsZeroValue = 0
    ∧ score_claim exMetricsUnknown {} exFrsZeroValue = 20
    ∧ 100 < calculate_score exMetricsNegDebt exGrowthFive [] := by
  refine ⟨?_, ?_, ?_⟩
  · simp [calculate_score, exMetricsUnknown, exFrsZeroValue, alookup]
  · simp [score_claim, exMetricsUnknown, exFrsZeroValue, alookup]
    norm_num [min_def, max_def]
  · simp [calculate_score, exMetricsNegDebt, exGrowthFive, alookup]
    norm_num [min_def, max_def]

/-- C8: every filter whose required input is unknown returns a failed
result with its explanatory reason: an absent PE ratio, an absent or empty
ROIC history, an absent externally supplied growth-year count, and absent
debt-to-equity, free cash flow or cash-flow yield each fail closed with
their "not available" reason; and the positive-earnings filter — which
reads the `has_positive_earnings` flag that `calculate_all` sets to true
only for a known positive TTM income (metrics.py:230) — fails whenever TTM
earnings are unknown, given that flag invariant. No filter treats an
unknown as a numeric zero. -/
theorem filters_fail_closed :
    ∀ (th : ScreeningThresholds) (st : IAState) (m : FinancialMetrics),
      (m.pe_ratio = none →
        (filter_pe_below_industry st m).1.passed = false
        ∧ (filter_pe_below_industry st m).1.reason = "PE ratio not available")
      ∧ ((m.roic_history = none ∨ m.roic_history = some []) →
        (filter_roic_consistent th m).passed = false
        ∧ (filter_roic_consistent th m).reason = "ROIC history not available")
      ∧ ((filter_revenue_growth th none).passed = false
        ∧ (filter_revenue_growth th none).reason = "Revenue growth data not available")
      ∧ ((filter_earnings_growth th none).passed = false
        ∧ (filter_earnings_growth th none).reason = "Earnings growth data not available")
      ∧ (m.debt_to_equity = none →
        (filter_debt_to_equity th m).passed = false
        ∧ (filter_debt_to_equity th m).reason = "D/E ratio not available")
      ∧ (m.free_cash_flow = none →
        (filter_positive_fcf m).passed = false
        ∧ (filter_positive_fcf m).reason = "FCF not available")
      ∧ (m.cf_yield = none →
        (filter_cf_yield th m).passed = false
        ∧ (filter_cf_yield th m).reason = "CF yield not available")
      ∧ ((m.has_positive_earnings = true → ∃ e, m.ttm_earnings = some e ∧ 0 < e) →
        m.ttm_earnings = none → (filter_positive_earnings m).passed = false) := by
  intro th st m
  refine ⟨?_, ?_, ?_, ?_, ?_, ?_, ?_, ?_⟩
  · intro h
    simp [filter_pe_below_industry, h]
  · intro h
    rcases h with h | h <;> simp [filter_roic_consistent, h]
  · simp [filter_revenue_growth]
  · simp [filter_earnings_growth]
  · intro h
    simp [filter_debt_to_equity, h]
  · intro h
    simp [filter_positive_fcf, h]
  · intro h
    simp [filter_cf_yield, h]
  · intro hinv hnone
    rcases hflag : m.has_positive_earnings
    · simp [filter_positive_earnings, hflag]
    · rcases hinv hflag with ⟨e, he, -⟩
      rw [hnone] at he
      cases he

/-- Witness for C8 at an all-unknown metrics record against the default
thresholds and a fresh pool. -/
theorem filters_fail_closed_witness :
    ((filter_pe_below_industry initIA exMetricsUnknown).1.passed = false
      ∧ (filter_pe_below_industry initIA exMetricsUnknown).1.reason = "PE ratio not available")
    ∧ ((filter_roic_consistent defaultThresholds exMetricsUnknown).passed = false
      ∧ (filter_roic_consistent defaultThresholds exMetricsUnknown).reason
          = "ROIC history not available")
    ∧ (filter_revenue_growth defaultThresholds none).passed = false
    ∧ (filter_earnings_growth defaultThresholds none).passed = false
    ∧ (filter_debt_to_equity defaultThresholds exMetricsUnknown).passed = false
    ∧ (filter_positive_fcf exMetricsUnknown).passed = false
    ∧ (filter_cf_yield defaultThresholds exMetricsUnknown).passed = false
    ∧ (filter_positive_earnings exMetricsUnknown).passed = false := by
  have h := filters_fail_closed defaultThresholds initIA exMetricsUnknown
  refine ⟨h.1 rfl, h.2.1 (Or.inl rfl), h.2.2.1.1, h.2.2.2.1.1, (h.2.2.2.2.1 rfl).1,
    (h.2.2.2.2.2.1 rfl).1, (h.2.2.2.2.2.2.1 rfl).1, h.2.2.2.2.2.2.2 ?_ rfl⟩
  intro hflag
  simp [exMetricsUnknown] at hflag

/-- C1: `_apply_filters` calls `self.filters.filter_pe_below_max(metrics)`,
but `StockFilters` defines no method of that name (the PE criterion is
`filter_pe_below_industry`), so for every company the very first criterion
raises `AttributeError`; `_screen_companies` wraps the call in no handler,
so one company's screening failure — here every company's — aborts the
batch instead of producing a value or an unknown marker. -/
theorem apply_filters_attribute_error :
    (∀ (th : ScreeningThresholds) (st : IAState) (m : FinancialMetrics) (g : GrowthData),
      apply_filters th st m g
        = Except.error "AttributeError: StockFilters object has no attribute filter_pe_below_max")
    ∧ "filter_pe_below_max" ∉ stock_filters_method_names :=
  ⟨fun _ _ _ _ => rfl, by decide⟩
